import Mathlib

/-!
Verification of the extraction-and-identity-resolution pipeline of
`iqm_resolution_archiver.py` (class `IqmScraper` and `main`).

The embedding works over an intermediate representation of the fetched HTML
document: every field of `Document` below corresponds to one BeautifulSoup
lookup performed by `IqmScraper.get_resolution` (an `Option` field models a
lookup that may find no element).  Python string methods used by the source
(`str.split`, `str.replace` with a single-character pattern, `str.lower`,
`str.strip`) are given exact executable counterparts (`pySplit`,
`pyRemoveChar`, `pyLower`, `pyStrip`); in particular `pySplit` reproduces
Python's `"".split(", ") == [""]`.  The SQLAlchemy session is modelled by
`ScraperState`: pending/committed `Person` and `VoteType` rows as append-only
lists (ids assigned sequentially, modelling autoincrement at autoflush) and
the two name-to-id caches as insertion-ordered association lists with
Python-dict semantics (`pyDictInsert`, `pyDictGet?`).  Exceptions raised by
the Python code (KeyError, IndexError, the `safe_find` failure) are modelled
with `Except String`.
-/

/-! ## Python string primitives -/

/-- Characters stripped by Python `str.strip()` as far as this source needs:
the ASCII whitespace characters plus the non-breaking space U+00A0 (which
Python treats as whitespace). -/
def pySpace (c : Char) : Bool :=
  c = ' ' || c = '\t' || c = '\n' || c = '\r' || c = '\x0b' || c = '\x0c' || c = '\u00A0'

/-- Model of Python `str.strip()`: drop leading and trailing whitespace. -/
def pyStrip (s : String) : String :=
  ⟨((s.data.dropWhile pySpace).reverse.dropWhile pySpace).reverse⟩

/-- Model of Python `str.lower()` (the source only lowercases ASCII labels). -/
def pyLower (s : String) : String :=
  ⟨s.data.map Char.toLower⟩

/-- Model of Python `str.replace(c, "")` for a single-character pattern, the
only form of `replace` the source uses (`":"` and `"\xa0"`). -/
def pyRemoveChar (c : Char) (s : String) : String :=
  ⟨s.data.filter (fun x => x ≠ c)⟩

/-- If `sep` is a leading run of `l`, return the remainder. -/
def stripLead : List Char → List Char → Option (List Char)
  | [], l => some l
  | _ :: _, [] => none
  | p :: ps, x :: xs => if p = x then stripLead ps xs else none

/-- Core of Python `str.split(sep)` for a non-empty separator `c :: cs`:
left-to-right, non-overlapping, and the split of the empty string is `[[]]`
(so `"".split(", ") == [""]`, as in Python).  The `fuel` argument makes the
recursion structural; it is called with `fuel = l.length`, which always
suffices since every recursive call shortens the list. -/
def pySplitCore (c : Char) (cs : List Char) : Nat → List Char → List (List Char)
  | _, [] => [[]]
  | 0, l => [l]
  | fuel + 1, x :: xs =>
    if x = c then
      match stripLead cs xs with
      | some rest => [] :: pySplitCore c cs fuel rest
      | none =>
        match pySplitCore c cs fuel xs with
        | [] => [[x]]
        | g :: gs => (x :: g) :: gs
    else
      match pySplitCore c cs fuel xs with
      | [] => [[x]]
      | g :: gs => (x :: g) :: gs

/-- Model of Python `str.split(sep)` with an explicit separator.  The source
never calls it with an empty separator (Python would raise there). -/
def pySplit (s sep : String) : List String :=
  match sep.data with
  | [] => [s]
  | c :: cs => (pySplitCore c cs s.data.length s.data).map (fun l => ⟨l⟩)

/-- Is `needle` a substring of `hay`?  Models Python's `needle in hay`. -/
def listContainsSub (needle : List Char) : List Char → Bool
  | [] => (stripLead needle []).isSome
  | x :: xs => (stripLead needle (x :: xs)).isSome || listContainsSub needle xs

/-- Model of Python `needle in hay` on strings. -/
def pyContains (hay needle : String) : Bool :=
  listContainsSub needle.data hay.data

/-- Model of Python `int(s)` restricted to the decimal digit strings that the
source actually feeds it (URL `ID` query-parameter values). -/
def pyNat? (s : String) : Option Nat :=
  if s.data ≠ [] ∧ s.data.all Char.isDigit then
    some (s.data.foldl (fun n c => n * 10 + (c.toNat - 48)) 0)
  else none

/-! ## Python-dict association lists

The identity caches `people_name_to_id` / `custom_vote_type_name_to_id` and
the temporary `voting_entry["custom_vote_types"]` dictionary are Python
dicts: insertion-ordered, assignment overwrites in place. -/

/-- Python dict assignment `d[k] = v`: overwrite in place if `k` is present,
else append. -/
def pyDictInsert {α : Type} (d : List (String × α)) (k : String) (v : α) : List (String × α) :=
  if d.any (fun p => p.1 = k) then
    d.map (fun p => if p.1 = k then (k, v) else p)
  else d ++ [(k, v)]

/-- Python dict lookup `d.get(k)` / `d[k]` (the caller decides whether a
`none` is a KeyError). -/
def pyDictGet? {α : Type} (d : List (String × α)) (k : String) : Option α :=
  (d.find? (fun p => p.1 = k)).map Prod.snd

theorem pyDictGet?_mem_values {α : Type} (d : List (String × α)) (k : String) (v : α)
    (h : pyDictGet? d k = some v) : v ∈ d.map Prod.snd := by
  unfold pyDictGet? at h
  cases hf : d.find? (fun p => p.1 = k) with
  | none => rw [hf] at h; simp at h
  | some p =>
    rw [hf] at h
    simp at h
    have := List.mem_of_find?_eq_some hf
    subst h
    exact List.mem_map_of_mem Prod.snd this

/-! ## Data model

Object-level counterparts of the SQLAlchemy entities the pipeline builds.
Fields follow the Python constructors: columns the constructor does not set
(`department`, `category`, `body`, unset `meetingId`) are `Option`s even
though the schema declares some of them non-nullable — the pipeline hands
such objects to the session as-is. -/

/-- A row of the `people` table: `Person(id, name)`. -/
structure PersonRow where
  id : Nat
  name : String
deriving DecidableEq, Repr

/-- A row of the `voteTypes` table: `VoteType(id, name)`. -/
structure VoteTypeRow where
  id : Nat
  name : String
deriving DecidableEq, Repr

/-- `PersonVote(person_id, vote_type_id)` as constructed at lines 500-505
(the `resolution_vote_id` half of the composite key is wired up by the ORM
relationship, not by this code). -/
structure PersonVote where
  person_id : Nat
  vote_type_id : Nat
deriving DecidableEq, Repr

/-- `ResolutionVote(result, mover_id, resolution_id, person_votes)` as
constructed at lines 508-513. -/
structure ResolutionVote where
  result : String
  mover_id : Nat
  resolution_id : Nat
  person_votes : List PersonVote
deriving DecidableEq, Repr

/-- `ResolutionCustomSection(name, content)`. -/
structure ResolutionCustomSection where
  name : String
  content : String
deriving DecidableEq, Repr

/-- `ResolutionAttachment(path, title)`. -/
structure ResolutionAttachment where
  path : String
  title : String
deriving DecidableEq, Repr

/-- The timestamp produced by `datetime.strptime(s, "%b %d, %Y %I:%M %p")`
(hour stored in 24-hour form, as `datetime` does). -/
structure MeetingTimestamp where
  year : Nat
  month : Nat
  day : Nat
  hour : Nat
  minute : Nat
deriving DecidableEq, Repr

/-- `ResolutionMeeting(meetingId, timestamp)`; `meetingId` is `None` when no
link in the date cell carries an `ID` query parameter. -/
structure ResolutionMeeting where
  meetingId : Option Nat
  timestamp : MeetingTimestamp
deriving DecidableEq, Repr

/-- The `Resolution` aggregate.  `functions` holds the `ResolutionFunction`
names; `sponsors` is always left empty by the source (non-goal). -/
structure Resolution where
  id : Nat
  name : String
  type : String
  title : String
  department : Option String
  category : Option String
  body : Option String
  functions : List String
  customSections : List ResolutionCustomSection
  attachments : List ResolutionAttachment
  meetings : List ResolutionMeeting
  votes : List ResolutionVote
  sponsors : List Nat
deriving DecidableEq, Repr

/-! ## Document intermediate representation

One fetched page, as seen through the BeautifulSoup lookups that
`get_resolution` performs.  `Option` marks lookups that may find nothing.
Cells the claims never exercise as absent (section headings, vote-record
row cells, meeting header cells) are represented as present. -/

/-- One `LegiFileSection` block: its `h4` heading text and the text of its
`LegiFileSectionContents` sub-element. -/
structure SectionDoc where
  name : String
  content : String
deriving DecidableEq, Repr

/-- The `tblLegiFileInfo` table: the texts of its `th` cells and of its `td`
cells, in document order. -/
structure InfoTableDoc where
  headers : List String
  data : List String
deriving DecidableEq, Repr

/-- One `HeaderRow HistorySection` row of the meeting-history table: the
texts of its `Group`, `Type` and `Date` cells, and the `href`s of the links
inside the date cell. -/
structure MeetingHeaderDoc where
  group : String
  gtype : String
  dateText : String
  dateLinks : List String
deriving DecidableEq, Repr

/-- One `VoteRecord` table: its rows as (first-cell text, second-cell text)
pairs. -/
structure VoteRecordDoc where
  rows : List (String × String)
deriving DecidableEq, Repr

/-- The `LayoutTable MeetingHistory` table: its header rows and its
vote-record tables, two independent `find_all` results. -/
structure MeetingHistoryDoc where
  headerRows : List MeetingHeaderDoc
  votingRecords : List VoteRecordDoc
deriving DecidableEq, Repr

/-- A fetched document. -/
structure Document where
  /-- `page_res.text`, the raw page the error phrases are scanned in. -/
  text : String
  /-- text of `div#ContentPlaceholder1_lblResNum`, if found -/
  lblResNum : Option String
  /-- text of `div#ContentPlaceholder1_lblLegiFileType`, if found -/
  lblLegiFileType : Option String
  /-- text of `h1#ContentPlaceholder1_lblLegiFileTitle`, if found -/
  lblLegiFileTitle : Option String
  /-- all `LegiFileSection` blocks, in document order -/
  sections : List SectionDoc
  /-- `table#tblLegiFileInfo`, if found -/
  informationTable : Option InfoTableDoc
  /-- `div#ContentPlaceholder1_divDownloads`: its links as (href, text)
  pairs, if the container exists -/
  attachmentSection : Option (List (String × String))
  /-- `div#divBody`, and inside it the `LegiFileSectionContents` text -/
  bodySection : Option (Option String)
  /-- text of `div#ContentPlaceholder1_divDiscussion`, if found -/
  discussion : Option String
  /-- `table.LayoutTable.MeetingHistory`, if found -/
  meetingHistory : Option MeetingHistoryDoc
deriving DecidableEq, Repr

/-! ## Scraper constants (`IqmScraper` class attributes) -/

/-- `IqmScraper.ERR_RES`: the fixed error-page signatures. -/
def ERR_RES : List String :=
  ["The requested Document could not be retrieved.",
   "Access Denied You do not have permissions to view"]

/-- `IqmScraper.WELL_KNOWN_SECTION_NAMES`. -/
def WELL_KNOWN_SECTION_NAMES : List String :=
  ["Information", "Attachments", "Body", "Meeting History", "Discussion"]

/-- `IqmScraper.EMPTY_DISCUSSION_TEXT`, the sentinel an empty discussion
section renders as. -/
def EMPTY_DISCUSSION_TEXT : String :=
  "\nDiscussion\n\n\n\nAdd Comment\n\n\nType in your comments here\n\u00A0Add Comment\u00A0\nComment to board only \n\n\n\n\n\n"

/-- `any(err in page_res.text for err in IqmScraper.ERR_RES)` (line 280). -/
def containsAnyErrPhrase (text : String) : Bool :=
  ERR_RES.any (fun err => pyContains text err)

/-! ## Scraper state

The cross-document state of one `IqmScraper`: the `people` / `voteTypes`
rows known to the database session (committed or pending — `session.add`
followed by any query autoflushes, so a pending row is visible with an id)
and the two in-memory caches. -/

structure ScraperState where
  /-- rows of the `people` table, in insertion order -/
  people_store : List PersonRow
  /-- rows of the `voteTypes` table, in insertion order -/
  vote_type_store : List VoteTypeRow
  /-- `self.people_name_to_id` -/
  people_name_to_id : List (String × Nat)
  /-- `self.custom_vote_type_name_to_id` -/
  custom_vote_type_name_to_id : List (String × Nat)
deriving DecidableEq, Repr

/-- `IqmScraper.add_person`: `session.add(Person(name=name))`; the
autoincrement id it will receive at flush is the next free one. -/
def add_person (s : ScraperState) (name : String) : ScraperState :=
  { s with people_store := s.people_store ++ [{ id := s.people_store.length + 1, name := name }] }

/-- `IqmScraper.add_custom_vote_type`: `session.add(VoteType(name=name))`. -/
def add_custom_vote_type (s : ScraperState) (name : String) : ScraperState :=
  { s with vote_type_store :=
      s.vote_type_store ++ [{ id := s.vote_type_store.length + 1, name := name }] }

/-- `IqmScraper.refresh_people`: rebuild the cache as a dict comprehension
over `session.query(Person).all()`. -/
def refresh_people (s : ScraperState) : ScraperState :=
  { s with people_name_to_id :=
      s.people_store.foldl (fun d p => pyDictInsert d p.name p.id) [] }

/-- `IqmScraper.refresh_custom_vote_types`: rebuild the vote-type cache from
`session.query(VoteType).all()`. -/
def refresh_custom_vote_types (s : ScraperState) : ScraperState :=
  { s with custom_vote_type_name_to_id :=
      s.vote_type_store.foldl (fun d v => pyDictInsert d v.name v.id) [] }

/-! ## Vote-record processing (`get_resolution` lines 437-515) -/

/-- The temporary `voting_entry` dict built while walking one `VoteRecord`
table.  `none` in `result` / `mover` models the key being absent (so that a
later `voting_entry[...]` access is a KeyError). -/
structure VotingEntry where
  result : Option String
  mover : Option String
  custom_vote_types : List (String × List String)
deriving DecidableEq, Repr

/-- `text.replace(":", "").lower()`, the label normalization applied to both
information-table headers (line 325) and vote-record row labels (line 441). -/
def normalizeLabel (s : String) : String :=
  pyLower (pyRemoveChar ':' s)

/-- One iteration of the row loop at lines 439-463: classify the row into
`result` / `mover` (first `", "`-token only) / discarded `seconder` / a
custom vote-type bucket holding the `", "`-split voter list. -/
def processVoteRow (e : VotingEntry) (label value : String) : VotingEntry :=
  let field_name := normalizeLabel label
  if field_name = "result" then
    { e with result := some value }
  else if field_name = "mover" then
    { e with mover := (pySplit value ", ").head? }
  else if field_name = "seconder" then
    e
  else
    { e with custom_vote_types :=
        pyDictInsert e.custom_vote_types field_name (pySplit value ", ") }

/-- The initial `voting_entry = {"custom_vote_types": {}}` of line 437. -/
def emptyVotingEntry : VotingEntry :=
  { result := none, mover := none, custom_vote_types := [] }

/-- The voter-resolution batch of lines 477-481: walk every voter of every
bucket and `add_person` any name missing from the *current* cache (the cache
is not refreshed inside the batch).  The boolean is `must_refresh_people`,
threaded in from the mover step. -/
def ensurePeople (start : ScraperState × Bool) (buckets : List (String × List String)) :
    ScraperState × Bool :=
  buckets.foldl
    (fun acc bucket =>
      bucket.2.foldl
        (fun acc voter =>
          if (pyDictGet? acc.1.people_name_to_id voter).isNone then
            (add_person acc.1 voter, true)
          else acc)
        acc)
    start

/-- The vote-type resolution loop of lines 484-487. -/
def ensureVoteTypes (s : ScraperState) (buckets : List (String × List String)) :
    ScraperState × Bool :=
  buckets.foldl
    (fun acc bucket =>
      if (pyDictGet? acc.1.custom_vote_type_name_to_id bucket.1).isNone then
        (add_custom_vote_type acc.1 bucket.1, true)
      else acc)
    (s, false)

/-- Lines 465-493: resolve the mover (create and refresh immediately on
miss), then the voter batch, then the vote-type labels, then the deferred
refreshes guarded by the two `must_refresh` flags. -/
def resolveIdentities (s : ScraperState) (mover : String)
    (buckets : List (String × List String)) : ScraperState :=
  let moverNew := (pyDictGet? s.people_name_to_id mover).isNone
  let s1 := if moverNew then refresh_people (add_person s mover) else s
  let (s2, must_refresh_people) := ensurePeople (s1, moverNew) buckets
  let (s3, must_refresh_vote_types) := ensureVoteTypes s2 buckets
  let s4 := if must_refresh_people then refresh_people s3 else s3
  if must_refresh_vote_types then refresh_custom_vote_types s4 else s4

/-- The inner loop of lines 498-506 for one bucket: one `PersonVote` per
voter, by cache lookup (a missing key is a Python KeyError). -/
def buildBucket (s : ScraperState) (vote_type : String) :
    List String → Except String (List PersonVote)
  | [] => Except.ok []
  | voter :: rest =>
    match pyDictGet? s.people_name_to_id voter with
    | none => Except.error "KeyError: person"
    | some person_id =>
      match pyDictGet? s.custom_vote_type_name_to_id vote_type with
      | none => Except.error "KeyError: vote type"
      | some vote_type_id =>
        match buildBucket s vote_type rest with
        | Except.error e => Except.error e
        | Except.ok more => Except.ok ({ person_id := person_id, vote_type_id := vote_type_id } :: more)

/-- The `person_votes` loop of lines 496-506, over the buckets in dict
order. -/
def buildPersonVotes (s : ScraperState) :
    List (String × List String) → Except String (List PersonVote)
  | [] => Except.ok []
  | bucket :: rest =>
    match buildBucket s bucket.1 bucket.2 with
    | Except.error e => Except.error e
    | Except.ok these =>
      match buildPersonVotes s rest with
      | Except.error e => Except.error e
      | Except.ok more => Except.ok (these ++ more)

/-- Lines 437-515: process one `VoteRecord` table — fold the rows into the
temporary `voting_entry`, resolve identities, build the `PersonVote` list,
and construct the `ResolutionVote` (its constructor reads
`voting_entry["result"]` and looks the mover up in the cache). -/
def processVoteRecord (s : ScraperState) (resolution_id : Nat)
    (rows : List (String × String)) : Except String (ResolutionVote × ScraperState) :=
  let entry := rows.foldl (fun e r => processVoteRow e r.1 r.2) emptyVotingEntry
  match entry.mover with
  | none => Except.error "KeyError: mover"
  | some mover =>
    let s5 := resolveIdentities s mover entry.custom_vote_types
    match buildPersonVotes s5 entry.custom_vote_types with
    | Except.error e => Except.error e
    | Except.ok person_votes =>
      match entry.result with
      | none => Except.error "KeyError: result"
      | some result =>
        match pyDictGet? s5.people_name_to_id mover with
        | none => Except.error "KeyError: mover lookup"
        | some mover_id =>
          Except.ok
            ({ result := result, mover_id := mover_id, resolution_id := resolution_id,
               person_votes := person_votes }, s5)

/-! ## Custom sections (`get_resolution` lines 294-311) -/

/-- `section.find(class_="LegiFileSectionContents").text.strip().replace("\xa0", "")`. -/
def cleanSectionContent (content : String) : String :=
  pyRemoveChar '\u00A0' (pyStrip content)

/-- The section loop of lines 297-311: every section whose heading is not
well-known becomes a `ResolutionCustomSection`, in document order. -/
def buildCustomSections : List SectionDoc → List ResolutionCustomSection
  | [] => []
  | sec :: rest =>
    if WELL_KNOWN_SECTION_NAMES.contains sec.name then
      buildCustomSections rest
    else
      { name := sec.name, content := cleanSectionContent sec.content } :: buildCustomSections rest

/-! ## Information table (`get_resolution` lines 313-352) -/

/-- The warning printed at line 321 when the header/value counts differ. -/
def infoMismatchWarning (resolution_id : Nat) : String :=
  "error parsing information table for resolution " ++ toString resolution_id

/-- One iteration of the row loop at lines 323-352: empty values are skipped
entirely; `department` / `category` set scalar fields, `functions` is split
on `", "`, `sponsors` is recognized but intentionally left unpopulated. -/
def applyInfoRow (res : Resolution) (header value : String) : Resolution :=
  let header_name := normalizeLabel header
  if value = "" then res
  else if header_name = "department" then { res with department := some value }
  else if header_name = "category" then { res with category := some value }
  else if header_name = "functions" then { res with functions := pySplit value ", " }
  else if header_name = "sponsors" then { res with sponsors := [] }
  else res

/-- The loop `for index in range(len(table_headers))` of line 323: it indexes
`table_data[index]`, so running out of value cells while header cells remain
is an IndexError. -/
def infoRowsLoop (res : Resolution) : List String → List String → Except String Resolution
  | [], _ => Except.ok res
  | _ :: _, [] => Except.error "IndexError: list index out of range"
  | h :: hs, d :: ds => infoRowsLoop (applyInfoRow res h d) hs ds

/-- Lines 317-352: compare the header/value counts (flagging the non-fatal
warning on mismatch) and run the row loop. -/
def processInformationSection (resolution_id : Nat) (res : Resolution)
    (it : InfoTableDoc) : Except String (Resolution × List String) :=
  let warnings := if it.headers.length ≠ it.data.length then [infoMismatchWarning resolution_id] else []
  match infoRowsLoop res it.headers it.data with
  | Except.error e => Except.error e
  | Except.ok res' => Except.ok (res', warnings)

/-! ## Attachments and body (`get_resolution` lines 354-376) -/

/-- Lines 354-363: each link of the downloads container becomes one
`ResolutionAttachment` (href → path, link text → title). -/
def attachStage (attachmentSection : Option (List (String × String))) (res : Resolution) : Resolution :=
  match attachmentSection with
  | some links =>
    { res with attachments := links.map (fun l => { path := l.1, title := l.2 }) }
  | none => res

/-- Lines 369-375: only when `include_body`; the `divBody` container is
optional, but once it exists its `LegiFileSectionContents` child is required
(`safe_find`); non-breaking spaces are stripped from the text. -/
def bodyStage (include_body : Bool) (bodySection : Option (Option String))
    (res : Resolution) : Except String Resolution :=
  if include_body then
    match bodySection with
    | some (some contents) => Except.ok { res with body := some (pyRemoveChar '\u00A0' contents) }
    | some none => Except.error "Could not find element div with class LegiFileSectionContents"
    | none => Except.ok res
  else Except.ok res

/-! ## Meeting history (`get_resolution` lines 389-434) -/

/-- Lowercased month abbreviations accepted by `%b`. -/
def MONTH_ABBREVS : List String :=
  ["jan", "feb", "mar", "apr", "may", "jun", "jul", "aug", "sep", "oct", "nov", "dec"]

/-- Model of the Python library call
`datetime.strptime(s, "%b %d, %Y %I:%M %p")` (line 415): month abbreviation,
day `1..31` followed by a comma, four-digit year, hour `1..12`, minute
`0..59`, and a case-insensitive am/pm marker, separated by single spaces.
Any other shape raises (modelled as an error). -/
def parseMeetingDatetime (s : String) : Except String MeetingTimestamp :=
  match pySplit s " " with
  | [mon, dayPart, yearPart, hmPart, apPart] =>
    match MONTH_ABBREVS.findIdx? (fun m => m = pyLower mon) with
    | none => Except.error "ValueError: time data does not match format"
    | some monthIdx =>
      if dayPart.data.getLast? = some ',' then
        match pyNat? ⟨dayPart.data.dropLast⟩ with
        | none => Except.error "ValueError: time data does not match format"
        | some day =>
          if 1 ≤ day ∧ day ≤ 31 then
            match pyNat? yearPart with
            | none => Except.error "ValueError: time data does not match format"
            | some year =>
              if yearPart.data.length = 4 then
                match pySplit hmPart ":" with
                | [hourStr, minStr] =>
                  match pyNat? hourStr, pyNat? minStr with
                  | some hour12, some minute =>
                    if 1 ≤ hour12 ∧ hour12 ≤ 12 ∧ minute ≤ 59 then
                      let ap := pyLower apPart
                      if ap = "am" then
                        Except.ok { year := year, month := monthIdx + 1, day := day,
                                    hour := if hour12 = 12 then 0 else hour12, minute := minute }
                      else if ap = "pm" then
                        Except.ok { year := year, month := monthIdx + 1, day := day,
                                    hour := if hour12 = 12 then 12 else hour12 + 12, minute := minute }
                      else Except.error "ValueError: time data does not match format"
                    else Except.error "ValueError: time data does not match format"
                  | _, _ => Except.error "ValueError: time data does not match format"
                | _ => Except.error "ValueError: time data does not match format"
              else Except.error "ValueError: time data does not match format"
          else Except.error "ValueError: time data does not match format"
      else Except.error "ValueError: time data does not match format"
  | _ => Except.error "ValueError: unconverted data remains"

/-- Model of `urlparse(href).query`: the part of the href after the first
`?` of its non-fragment part. -/
def urlQuery (href : String) : String :=
  match pySplit href "#" with
  | [] => ""
  | beforeFragment :: _ =>
    match pySplit beforeFragment "?" with
    | _ :: q :: qs => String.intercalate "?" (q :: qs)
    | _ => ""

/-- Model of `parse_qs(query).get("ID", None)` followed by taking the first
value: the first non-empty value bound to key `ID` (with Python defaults,
`parse_qs` drops blank values). -/
def parseQsID? (query : String) : Option String :=
  ((pySplit query "&").filterMap (fun kv =>
    match pySplit kv "=" with
    | k :: v :: vs =>
      let value := String.intercalate "=" (v :: vs)
      if k = "ID" ∧ value ≠ "" then some value else none
    | _ => none)).head?

/-- The best-effort meeting-id scan of lines 420-428: the first link of the
date cell whose query string carries an `ID` parameter. -/
def findMeetingId : List String → Option String
  | [] => none
  | href :: rest =>
    match parseQsID? (urlQuery href) with
    | some v => some v
    | none => findMeetingId rest

/-- The loop `for index in range(len(voting_records))` of lines 400-515:
header rows are consumed positionally (`header_rows[index]` — running out is
an IndexError), a `ResolutionMeeting` is appended, then the paired
`VoteRecord` table is processed into a `ResolutionVote`. -/
def meetingLoop (s : ScraperState) (resolution_id : Nat) (res : Resolution) :
    List MeetingHeaderDoc → List VoteRecordDoc → Except String (Resolution × ScraperState)
  | _, [] => Except.ok (res, s)
  | [], _ :: _ => Except.error "IndexError: list index out of range"
  | header_row :: hrs, voting_record :: vrs =>
    -- `meeting_type` (lines 408-413) is computed by the source but never used
    let _meeting_type := String.intercalate " - " [header_row.group, header_row.gtype]
    match parseMeetingDatetime ((pySplit header_row.dateText "\u00A0").headD "") with
    | Except.error e => Except.error e
    | Except.ok meeting_datetime =>
      match ((match findMeetingId header_row.dateLinks with
              | some idStr =>
                match pyNat? (pyStrip idStr) with
                | some n => Except.ok (some n)
                | none => Except.error "ValueError: invalid literal for int"
              | none => Except.ok none) : Except String (Option Nat)) with
      | Except.error e => Except.error e
      | Except.ok meetingId =>
        let res := { res with meetings :=
          res.meetings ++ [({ meetingId := meetingId, timestamp := meeting_datetime } : ResolutionMeeting)] }
        match processVoteRecord s resolution_id voting_record.rows with
        | Except.error e => Except.error e
        | Except.ok (new_vote, s') =>
          meetingLoop s' resolution_id { res with votes := res.votes ++ [new_vote] } hrs vrs

/-! ## `IqmScraper.get_resolution` (lines 275-517)

Returns the staged `Resolution` aggregate (or `none` for an error page), the
scraper state after identity resolution, and the lines printed.  A raised
Python exception is an `Except.error`. -/

def get_resolution (s : ScraperState) (resolution_id : Nat) (doc : Document)
    (include_body : Bool) : Except String (Option Resolution × ScraperState × List String) :=
  -- lines 280-282: error-page scan runs first, before any structural parsing
  if containsAnyErrPhrase doc.text then
    Except.ok (none, s, ["err response for " ++ toString resolution_id])
  else
    -- lines 286-292: the three required header fields, each via `safe_find`
    match doc.lblResNum with
    | none => Except.error "Could not find element div with id ContentPlaceholder1_lblResNum"
    | some resNum =>
      match doc.lblLegiFileType with
      | none => Except.error "Could not find element div with id ContentPlaceholder1_lblLegiFileType"
      | some legiFileType =>
        match doc.lblLegiFileTitle with
        | none => Except.error "Could not find element h1 with id ContentPlaceholder1_lblLegiFileTitle"
        | some legiFileTitle =>
          let res : Resolution :=
            { id := resolution_id, name := resNum, type := legiFileType, title := legiFileTitle,
              department := none, category := none, body := none, functions := [],
              customSections := [], attachments := [], meetings := [], votes := [], sponsors := [] }
          -- lines 297-311
          let res := { res with customSections := buildCustomSections doc.sections }
          -- line 314: the information table itself is required
          match doc.informationTable with
          | none => Except.error "Could not find element table with id tblLegiFileInfo"
          | some informationTable =>
            match processInformationSection resolution_id res informationTable with
            | Except.error e => Except.error e
            | Except.ok (res, warnings) =>
              -- lines 354-363
              let res := attachStage doc.attachmentSection res
              -- lines 369-375
              match bodyStage include_body doc.bodySection res with
              | Except.error e => Except.error e
              | Except.ok res =>
                -- lines 381-387: the discussion container is required, but the
                -- comparison against the empty-discussion sentinel does nothing
                -- in either branch
                match doc.discussion with
                | none => Except.error "Could not find element div with id ContentPlaceholder1_divDiscussion"
                | some discussionText =>
                  let _discussion_nonempty := discussionText ≠ EMPTY_DISCUSSION_TEXT
                  -- lines 391-515: meeting history is optional
                  match doc.meetingHistory with
                  | none => Except.ok (some res, s, warnings)
                  | some mh =>
                    match meetingLoop s resolution_id res mh.headerRows mh.votingRecords with
                    | Except.error e => Except.error e
                    | Except.ok (res, s') => Except.ok (some res, s', warnings)

/-! ## Crawl controller (`main`, lines 552-575)

The `try` block wraps the whole `for` loop, so the first exception ends the
iteration; the `except` clause prints the failing id and message, and the
`finally` clause commits whatever was staged before the failure.  The model
takes the id sequence (Python `range(*config["resolution_range"])`), the
fetch collaborator as a function from id to `Document`, and the set of
already-recorded ids; it returns the staged aggregates in order, the final
scraper state, and the printed failure line, if any.  (The periodic
commit-cadence prints of lines 558-563 do not affect what ends up staged and
are not modelled.) -/

def crawlLoop (fetch : Nat → Document) (include_body : Bool) (recorded : List Nat)
    (s : ScraperState) : List Nat → List Resolution × ScraperState × Option (Nat × String)
  | [] => ([], s, none)
  | resolution_id :: rest =>
    if recorded.contains resolution_id then
      crawlLoop fetch include_body recorded s rest
    else
      match get_resolution s resolution_id (fetch resolution_id) include_body with
      | Except.error msg => ([], s, some (resolution_id, msg))
      | Except.ok (none, s', _) => crawlLoop fetch include_body recorded s' rest
      | Except.ok (some res, s', _) =>
        let (more, sF, failure) := crawlLoop fetch include_body recorded s' rest
        (res :: more, sF, failure)

/-! ## Concrete fixtures used by the witnesses and counterexamples -/

/-- The scraper state over a fresh (empty) database. -/
def emptyScraperState : ScraperState :=
  { people_store := [], vote_type_store := [], people_name_to_id := [],
    custom_vote_type_name_to_id := [] }

/-- `Except.isOk` as a plain definition (to state "raises"/"does not raise"
without naming a particular message). -/
def exceptOk {ε α : Type} : Except ε α → Bool
  | Except.ok _ => true
  | Except.error _ => false

/-- Decidable equality for `Except`, so that witness runs can be checked by
`decide`. -/
instance exceptDecEq {e a : Type} [DecidableEq e] [DecidableEq a] : DecidableEq (Except e a)
  | Except.ok x, Except.ok y =>
    if h : x = y then isTrue (by rw [h]) else isFalse (fun hc => h (Except.ok.inj hc))
  | Except.ok x, Except.error f => isFalse (fun hc => Except.noConfusion hc)
  | Except.error g, Except.ok y => isFalse (fun hc => Except.noConfusion hc)
  | Except.error g, Except.error f =>
    if h : g = f then isTrue (by rw [h]) else isFalse (fun hc => h (Except.error.inj hc))

/-! ## Supporting lemmas -/

theorem buildBucket_mem (s : ScraperState) (vt : String) (voters : List String)
    (pvs : List PersonVote) (h : buildBucket s vt voters = Except.ok pvs) :
    ∀ pv ∈ pvs, pv.person_id ∈ s.people_name_to_id.map Prod.snd ∧
      pv.vote_type_id ∈ s.custom_vote_type_name_to_id.map Prod.snd := by
  induction voters generalizing pvs with
  | nil =>
    simp [buildBucket] at h
    subst h
    simp
  | cons v rest ih =>
    simp only [buildBucket] at h
    cases hp : pyDictGet? s.people_name_to_id v with
    | none => rw [hp] at h; simp at h
    | some pid =>
      rw [hp] at h
      cases hv : pyDictGet? s.custom_vote_type_name_to_id vt with
      | none => rw [hv] at h; simp at h
      | some vtid =>
        rw [hv] at h
        cases hb : buildBucket s vt rest with
        | error e => rw [hb] at h; simp at h
        | ok more =>
          rw [hb] at h
          simp only [Except.ok.injEq] at h
          subst h
          intro pv hpv
          rcases List.mem_cons.mp hpv with hpv | hpv
          · subst hpv
            exact ⟨pyDictGet?_mem_values _ _ _ hp, pyDictGet?_mem_values _ _ _ hv⟩
          · exact ih more hb pv hpv

theorem buildPersonVotes_mem (s : ScraperState) (buckets : List (String × List String))
    (pvs : List PersonVote) (h : buildPersonVotes s buckets = Except.ok pvs) :
    ∀ pv ∈ pvs, pv.person_id ∈ s.people_name_to_id.map Prod.snd ∧
      pv.vote_type_id ∈ s.custom_vote_type_name_to_id.map Prod.snd := by
  induction buckets generalizing pvs with
  | nil =>
    simp [buildPersonVotes] at h
    subst h
    simp
  | cons bucket rest ih =>
    simp only [buildPersonVotes] at h
    cases hb : buildBucket s bucket.1 bucket.2 with
    | error e => rw [hb] at h; simp at h
    | ok these =>
      rw [hb] at h
      cases hr : buildPersonVotes s rest with
      | error e => rw [hr] at h; simp at h
      | ok more =>
        rw [hr] at h
        simp only [Except.ok.injEq] at h
        subst h
        intro pv hpv
        rcases List.mem_append.mp hpv with hpv | hpv
        · exact buildBucket_mem s bucket.1 bucket.2 these hb pv hpv
        · exact ih more hr pv hpv

theorem foldRows_mover_none (rows : List (String × String)) (e : VotingEntry)
    (he : e.mover = none) (h : ∀ r ∈ rows, normalizeLabel r.1 ≠ "mover") :
    (rows.foldl (fun e r => processVoteRow e r.1 r.2) e).mover = none := by
  induction rows generalizing e with
  | nil => simpa using he
  | cons r rest ih =>
    simp only [List.foldl_cons]
    apply ih
    · have hr : normalizeLabel r.1 ≠ "mover" := h r (List.mem_cons_self _ _)
      simp only [processVoteRow]
      split_ifs with h1 h2
      all_goals simpa using he
    · intro r' hr'
      exact h r' (List.mem_cons_of_mem _ hr')

theorem foldRows_result_none (rows : List (String × String)) (e : VotingEntry)
    (he : e.result = none) (h : ∀ r ∈ rows, normalizeLabel r.1 ≠ "result") :
    (rows.foldl (fun e r => processVoteRow e r.1 r.2) e).result = none := by
  induction rows generalizing e with
  | nil => simpa using he
  | cons r rest ih =>
    simp only [List.foldl_cons]
    apply ih
    · have hr : normalizeLabel r.1 ≠ "result" := h r (List.mem_cons_self _ _)
      simp only [processVoteRow]
      split_ifs with h1 h2 h3
      · exact absurd h1 hr
      all_goals simpa using he
    · intro r' hr'
      exact h r' (List.mem_cons_of_mem _ hr')

theorem pyDictGet?_append_single {α : Type} (d : List (String × α)) (k : String) (v : α)
    (h : d.any (fun p => p.1 = k) = false) :
    pyDictGet? (d ++ [(k, v)]) k = some v := by
  induction d with
  | nil => simp [pyDictGet?]
  | cons p rest ih =>
    simp only [List.any_cons, Bool.or_eq_false_iff] at h
    obtain ⟨hp, hrest⟩ := h
    simp only [List.cons_append, pyDictGet?, List.find?_cons, hp]
    exact ih hrest

theorem pyDictGet?_map_overwrite {α : Type} (d : List (String × α)) (k : String) (v : α)
    (h : d.any (fun p => p.1 = k) = true) :
    pyDictGet? (d.map (fun p => if p.1 = k then (k, v) else p)) k = some v := by
  induction d with
  | nil => simp at h
  | cons p rest ih =>
    simp only [List.any_cons, Bool.or_eq_true] at h
    by_cases hp : p.1 = k
    · simp [pyDictGet?, List.find?_cons, hp]
    · simp only [List.map_cons, if_neg hp, pyDictGet?, List.find?_cons, decide_eq_false hp]
      apply ih
      rcases h with h | h
      · exact absurd (of_decide_eq_true h) hp
      · exact h

theorem pyDictGet?_insert {α : Type} (d : List (String × α)) (k : String) (v : α) :
    pyDictGet? (pyDictInsert d k v) k = some v := by
  unfold pyDictInsert
  by_cases hany : d.any (fun p => p.1 = k)
  · rw [if_pos hany]
    exact pyDictGet?_map_overwrite d k v hany
  · rw [if_neg hany]
    exact pyDictGet?_append_single d k v (Bool.eq_false_iff.mpr hany)

/-! ## Claims -/

/-- Claim C1: for every vote record the resolver completes, every
`PersonVote` of the constructed `ResolutionVote` carries a `person_id` and a
`vote_type_id` that are values of the people cache and of the vote-type
cache as they stand when the record is constructed (the returned state `s'`
— the caches are not touched between the final refreshes and the
construction), and the `ResolutionVote`'s `mover_id` is a value of the
people cache.  `get_resolution` processes every vote record of a document
through this function, so no built record references an identity that was
not materialized first. -/
theorem C1_vote_references_materialized (s : ScraperState) (resolution_id : Nat)
    (rows : List (String × String)) (vote : ResolutionVote) (s' : ScraperState)
    (h : processVoteRecord s resolution_id rows = Except.ok (vote, s')) :
    vote.mover_id ∈ s'.people_name_to_id.map Prod.snd ∧
      ∀ pv ∈ vote.person_votes,
        pv.person_id ∈ s'.people_name_to_id.map Prod.snd ∧
        pv.vote_type_id ∈ s'.custom_vote_type_name_to_id.map Prod.snd := by
  simp only [processVoteRecord] at h
  cases hm : (rows.foldl (fun e r => processVoteRow e r.1 r.2) emptyVotingEntry).mover with
  | none => rw [hm] at h; simp at h
  | some mover =>
    rw [hm] at h
    dsimp only at h
    cases hb : buildPersonVotes
        (resolveIdentities s mover (rows.foldl (fun e r => processVoteRow e r.1 r.2) emptyVotingEntry).custom_vote_types)
        (rows.foldl (fun e r => processVoteRow e r.1 r.2) emptyVotingEntry).custom_vote_types with
    | error e => rw [hb] at h; simp at h
    | ok person_votes =>
      rw [hb] at h
      dsimp only at h
      cases hr : (rows.foldl (fun e r => processVoteRow e r.1 r.2) emptyVotingEntry).result with
      | none => rw [hr] at h; simp at h
      | some result =>
        rw [hr] at h
        dsimp only at h
        cases hmid : pyDictGet?
            (resolveIdentities s mover (rows.foldl (fun e r => processVoteRow e r.1 r.2) emptyVotingEntry).custom_vote_types).people_name_to_id mover with
        | none => rw [hmid] at h; simp at h
        | some mover_id =>
          rw [hmid] at h
          dsimp only at h
          simp only [Except.ok.injEq, Prod.mk.injEq] at h
          obtain ⟨hv, hs⟩ := h
          subst hs
          subst hv
          constructor
          · exact pyDictGet?_mem_values _ _ _ hmid
          · exact buildPersonVotes_mem _ _ _ hb

/-- Rows of the vote record used by the C1 witness. -/
def C1rows : List (String × String) :=
  [("Result:", "Passed"), ("Mover:", "Smith, Councilmember"), ("Ayes:", "Jones")]

/-- The `ResolutionVote` the C1 witness run constructs. -/
def C1vote : ResolutionVote :=
  { result := "Passed", mover_id := 1, resolution_id := 7,
    person_votes := [{ person_id := 2, vote_type_id := 1 }] }

/-- The scraper state after the C1 witness run. -/
def C1state : ScraperState :=
  { people_store := [{ id := 1, name := "Smith" }, { id := 2, name := "Jones" }],
    vote_type_store := [{ id := 1, name := "ayes" }],
    people_name_to_id := [("Smith", 1), ("Jones", 2)],
    custom_vote_type_name_to_id := [("ayes", 1)] }

theorem C1_witness :
    processVoteRecord emptyScraperState 7 C1rows = Except.ok (C1vote, C1state) ∧
      (C1vote.mover_id ∈ C1state.people_name_to_id.map Prod.snd ∧
        ∀ pv ∈ C1vote.person_votes,
          pv.person_id ∈ C1state.people_name_to_id.map Prod.snd ∧
          pv.vote_type_id ∈ C1state.custom_vote_type_name_to_id.map Prod.snd) :=
  ⟨by decide, C1_vote_references_materialized emptyScraperState 7 C1rows C1vote C1state (by decide)⟩

/-- Claim C2 (refuted by the run below, exhibiting the code bug): each
distinct person name should be created at most once, but a previously unseen
voter name occurring in two vote-type buckets of the same vote record is
passed to `add_person` twice — the batch loop of lines 477-481 checks each
voter against the cache without refreshing it after a creation.  Here the
unseen voter "Jones", listed under both "Ayes" and "Nays", ends up as two
`people` rows (ids 2 and 3), which the schema's unique constraint on
`people.name` would reject at flush time. -/
theorem C2_duplicate_person_creation :
    (processVoteRecord emptyScraperState 4
        [("Result:", "Passed"), ("Mover:", "Adams"), ("Ayes:", "Jones"), ("Nays:", "Jones")]).toOption.map
      (fun p => (p.2.people_store.filter (fun pr => pr.name = "Jones")).length) = some 2 := by
  decide

/-- The pre-populated scraper state used by the C3 exhibit: "Adams" and
"Smith" already exist, so no creations interfere. -/
def C3initState : ScraperState :=
  { people_store := [{ id := 1, name := "Adams" }, { id := 2, name := "Smith" }],
    vote_type_store := [],
    people_name_to_id := [("Adams", 1), ("Smith", 2)],
    custom_vote_type_name_to_id := [] }

/-- Claim C3 (refuted by the run below, exhibiting the code bug): the
resolver should never produce two `PersonVote` entries with the same
`person_id` for one voting event, but the loop of lines 496-506 appends one
`PersonVote` per occurrence of a voter name with no de-duplication.  Here
the voter "Smith" appears under both "Ayes" and "Nays" and the constructed
`ResolutionVote` carries `person_id` 2 twice — a duplicate
(person, resolution_vote) pair, which the composite primary key of
`personVotes` (and the `PersonVote` docstring) forbids. -/
theorem C3_duplicate_person_vote :
    (processVoteRecord C3initState 5
        [("Result:", "Passed"), ("Mover:", "Adams"), ("Ayes:", "Smith"), ("Nays:", "Smith")]).toOption.map
      (fun p => p.1.person_votes.map PersonVote.person_id) = some [2, 2] := by
  decide

/-- Claim C5: a vote-record row whose colon-stripped, lower-cased label is
`mover` sets the normalized mover to exactly the first `", "`-separated
token of the value; all trailing tokens are discarded. -/
theorem C5_mover_first_token (e : VotingEntry) (label value : String)
    (tok : String) (toks : List String)
    (hl : normalizeLabel label = "mover") (hv : pySplit value ", " = tok :: toks) :
    (processVoteRow e label value).mover = some tok := by
  simp [processVoteRow, hl, hv]

theorem C5_witness :
    normalizeLabel "Mover:" = "mover" ∧
      pySplit "Smith, Councilmember" ", " = "Smith" :: ["Councilmember"] ∧
      (processVoteRow emptyVotingEntry "Mover:" "Smith, Councilmember").mover = some "Smith" :=
  ⟨by decide, by decide,
    C5_mover_first_token emptyVotingEntry "Mover:" "Smith, Councilmember" "Smith" ["Councilmember"]
      (by decide) (by decide)⟩

/-- Claim C6 counterexample: the claim says an empty value yields an empty
voter list, but Python's `"".split(", ")` is `[""]`, so the row
`("Ayes:", "")` stores the singleton bucket `[""]` — not the empty list —
and, run through a whole vote record, a `Person` named `""` is created. -/
theorem C6_counterexample :
    (processVoteRow emptyVotingEntry "Ayes:" "").custom_vote_types = [("ayes", [""])] ∧
      [("ayes", ([""] : List String))] ≠ [("ayes", ([] : List String))] ∧
      (processVoteRecord emptyScraperState 3
          [("Result:", "Passed"), ("Mover:", "Adams"), ("Ayes:", "")]).toOption.map
        (fun p => p.2.people_store.map PersonRow.name) = some ["Adams", ""] := by
  refine ⟨by decide, by decide, by decide⟩

/-- Claim C6 as amended: a vote-record row whose label is not one of
result/mover/seconder stores the value split on `", "` as the ordered voter
list of that label's bucket; an empty value yields the singleton list
containing the empty string (so a voter entry for the empty name is
produced), not the empty list. -/
theorem C6_empty_value_singleton (e : VotingEntry) (label value : String)
    (h1 : normalizeLabel label ≠ "result") (h2 : normalizeLabel label ≠ "mover")
    (h3 : normalizeLabel label ≠ "seconder") :
    pyDictGet? (processVoteRow e label value).custom_vote_types (normalizeLabel label)
        = some (pySplit value ", ") ∧
      (value = "" → pySplit value ", " = [""]) := by
  constructor
  · simp only [processVoteRow, if_neg h1, if_neg h2, if_neg h3]
    exact pyDictGet?_insert _ _ _
  · intro hv
    subst hv
    decide

theorem C6_witness :
    normalizeLabel "Ayes:" ≠ "result" ∧ normalizeLabel "Ayes:" ≠ "mover" ∧
      normalizeLabel "Ayes:" ≠ "seconder" ∧
      (pyDictGet? (processVoteRow emptyVotingEntry "Ayes:" "").custom_vote_types
          (normalizeLabel "Ayes:") = some (pySplit "" ", ") ∧
        ("" = "" → pySplit "" ", " = [""])) :=
  ⟨by decide, by decide, by decide,
    C6_empty_value_singleton emptyVotingEntry "Ayes:" "" (by decide) (by decide) (by decide)⟩

/-- Claim C10: a vote record with no row labeling a mover — and likewise one
with no row labeling a result — makes the resolver raise (the missing-key
lookup on the temporary voting entry, or a later KeyError), so no
`ResolutionVote` with a defaulted or absent mover or result is ever
constructed. -/
theorem C10_missing_mover_or_result_raises (s : ScraperState) (resolution_id : Nat)
    (rows : List (String × String))
    (h : (∀ r ∈ rows, normalizeLabel r.1 ≠ "mover") ∨
         (∀ r ∈ rows, normalizeLabel r.1 ≠ "result")) :
    exceptOk (processVoteRecord s resolution_id rows) = false := by
  simp only [processVoteRecord]
  rcases h with h | h
  · rw [foldRows_mover_none rows emptyVotingEntry rfl h]
    rfl
  · cases hm : (rows.foldl (fun e r => processVoteRow e r.1 r.2) emptyVotingEntry).mover with
    | none => rfl
    | some mover =>
      dsimp only
      cases hb : buildPersonVotes
          (resolveIdentities s mover (rows.foldl (fun e r => processVoteRow e r.1 r.2) emptyVotingEntry).custom_vote_types)
          (rows.foldl (fun e r => processVoteRow e r.1 r.2) emptyVotingEntry).custom_vote_types with
      | error e => rfl
      | ok person_votes =>
        dsimp only
        rw [foldRows_result_none rows emptyVotingEntry rfl h]
        rfl

theorem C10_witness :
    ((∀ r ∈ [("Result:", "Passed")], normalizeLabel (Prod.fst r) ≠ "mover") ∨
        (∀ r ∈ [("Result:", "Passed")], normalizeLabel (Prod.fst r) ≠ "result")) ∧
      exceptOk (processVoteRecord emptyScraperState 11 [("Result:", "Passed")]) = false :=
  ⟨Or.inl (by decide),
    C10_missing_mover_or_result_raises emptyScraperState 11 [("Result:", "Passed")]
      (Or.inl (by decide))⟩

/-- Claim C4: when the fetched text contains any of the fixed error-page
signatures, `get_resolution` returns absent (`None`) before any structural
parsing: the result carries no resolution, the scraper state is returned
untouched (so nothing is created or staged for that id), and only the
"err response" line is printed. -/
theorem C4_error_page_returns_none (s : ScraperState) (resolution_id : Nat)
    (doc : Document) (include_body : Bool)
    (h : containsAnyErrPhrase doc.text = true) :
    get_resolution s resolution_id doc include_body =
      Except.ok (none, s, ["err response for " ++ toString resolution_id]) := by
  simp [get_resolution, h]

/-- An error-page document: its raw text contains the access-denied
signature, and no structural element is present at all. -/
def C4doc : Document :=
  { text := "junk Access Denied You do not have permissions to view this page",
    lblResNum := none, lblLegiFileType := none, lblLegiFileTitle := none,
    sections := [], informationTable := none, attachmentSection := none,
    bodySection := none, discussion := none, meetingHistory := none }

theorem C4_witness :
    containsAnyErrPhrase C4doc.text = true ∧
      get_resolution emptyScraperState 12 C4doc true =
        Except.ok (none, emptyScraperState, ["err response for " ++ toString 12]) :=
  ⟨by decide, C4_error_page_returns_none emptyScraperState 12 C4doc true (by decide)⟩

theorem infoRowsLoop_ok (headers data : List String) (res : Resolution)
    (h : headers.length ≤ data.length) : ∃ r, infoRowsLoop res headers data = Except.ok r := by
  induction headers generalizing res data with
  | nil => exact ⟨res, rfl⟩
  | cons hd tl ih =>
    cases data with
    | nil => simp at h
    | cons dv ds =>
      simp only [infoRowsLoop]
      exact ih ds (applyInfoRow res hd dv) (Nat.succ_le_succ_iff.mp h)

/-- The document of the C7 counterexample: a well-formed page whose
information table has two header cells but a single value cell. -/
def C7doc : Document :=
  { text := "ok", lblResNum := some "R", lblLegiFileType := some "T", lblLegiFileTitle := some "Ti",
    sections := [], informationTable := some { headers := ["Department:", "Category:"], data := ["Parks"] },
    attachmentSection := none, bodySection := none, discussion := some "d", meetingHistory := none }

/-- Claim C7 counterexample: with more header cells than value cells the row
loop of line 323 indexes `table_data[index]` past the end, so
`get_resolution` raises (an IndexError) instead of continuing best-effort
and returning the aggregate. -/
theorem C7_counterexample :
    get_resolution emptyScraperState 6 C7doc true =
      Except.error "IndexError: list index out of range" := by
  decide

/-- Claim C7 as amended: on a header/value count mismatch the information
section flags the non-fatal warning, and it continues best-effort — parsing
every header row and returning the updated aggregate — provided there are at
least as many value cells as header cells; with more header cells than value
cells the row loop instead raises an index error that aborts the document
(see the counterexample). -/
theorem C7_mismatch_warn_continue (resolution_id : Nat) (res : Resolution) (it : InfoTableDoc)
    (hne : it.headers.length ≠ it.data.length) (hle : it.headers.length ≤ it.data.length) :
    ∃ r, processInformationSection resolution_id res it =
      Except.ok (r, [infoMismatchWarning resolution_id]) := by
  obtain ⟨r, hr⟩ := infoRowsLoop_ok it.headers it.data res hle
  refine ⟨r, ?_⟩
  simp only [processInformationSection, hr, if_pos hne]

/-- A bare resolution record used as the starting point of the C7 witness. -/
def C7res : Resolution :=
  { id := 6, name := "R", type := "T", title := "Ti", department := none, category := none,
    body := none, functions := [], customSections := [], attachments := [], meetings := [],
    votes := [], sponsors := [] }

/-- The mismatched information table of the C7 witness: one header cell, two
value cells. -/
def C7table : InfoTableDoc :=
  { headers := ["Department:"], data := ["Parks", "Extra"] }

theorem C7_witness :
    C7table.headers.length ≠ C7table.data.length ∧
      C7table.headers.length ≤ C7table.data.length ∧
      ∃ r, processInformationSection 6 C7res C7table = Except.ok (r, [infoMismatchWarning 6]) :=
  ⟨by decide, by decide, C7_mismatch_warn_continue 6 C7res C7table (by decide) (by decide)⟩

theorem applyInfoRow_customSections (res : Resolution) (h d : String) :
    (applyInfoRow res h d).customSections = res.customSections := by
  simp only [applyInfoRow]
  split_ifs <;> rfl

theorem infoRowsLoop_customSections (headers data : List String) (res r : Resolution)
    (h : infoRowsLoop res headers data = Except.ok r) :
    r.customSections = res.customSections := by
  induction headers generalizing res data with
  | nil =>
    simp only [infoRowsLoop, Except.ok.injEq] at h
    subst h
    rfl
  | cons hd tl ih =>
    cases data with
    | nil => simp [infoRowsLoop] at h
    | cons dv ds =>
      simp only [infoRowsLoop] at h
      rw [ih ds (applyInfoRow res hd dv) h, applyInfoRow_customSections]

theorem processInformationSection_customSections (rid : Nat) (res : Resolution)
    (it : InfoTableDoc) (r : Resolution) (w : List String)
    (h : processInformationSection rid res it = Except.ok (r, w)) :
    r.customSections = res.customSections := by
  simp only [processInformationSection] at h
  cases hl : infoRowsLoop res it.headers it.data with
  | error e => rw [hl] at h; simp at h
  | ok r' =>
    rw [hl] at h
    simp only [Except.ok.injEq, Prod.mk.injEq] at h
    obtain ⟨h1, -⟩ := h
    subst h1
    exact infoRowsLoop_customSections _ _ _ _ hl

theorem attachStage_customSections (att : Option (List (String × String))) (res : Resolution) :
    (attachStage att res).customSections = res.customSections := by
  cases att <;> rfl

theorem bodyStage_customSections (ib : Bool) (bs : Option (Option String))
    (res r : Resolution) (h : bodyStage ib bs res = Except.ok r) :
    r.customSections = res.customSections := by
  unfold bodyStage at h
  split_ifs at h
  · cases bs with
    | none =>
      simp only [Except.ok.injEq] at h
      subst h
      rfl
    | some inner =>
      cases inner with
      | none => simp at h
      | some c =>
        simp only [Except.ok.injEq] at h
        subst h
        rfl
  · simp only [Except.ok.injEq] at h
    subst h
    rfl

theorem meetingLoop_customSections (vrs : List VoteRecordDoc) (hrs : List MeetingHeaderDoc)
    (s : ScraperState) (rid : Nat) (res r : Resolution) (s' : ScraperState)
    (h : meetingLoop s rid res hrs vrs = Except.ok (r, s')) :
    r.customSections = res.customSections := by
  induction vrs generalizing hrs s res r s' with
  | nil =>
    simp only [meetingLoop, Except.ok.injEq, Prod.mk.injEq] at h
    obtain ⟨h1, -⟩ := h
    subst h1
    rfl
  | cons vr vrs ih =>
    cases hrs with
    | nil => simp [meetingLoop] at h
    | cons hr hrs =>
      simp only [meetingLoop] at h
      cases hd : parseMeetingDatetime ((pySplit hr.dateText " ").headD "") with
      | error e => rw [hd] at h; simp at h
      | ok meeting_datetime =>
        rw [hd] at h
        dsimp only at h
        cases hid : ((match findMeetingId hr.dateLinks with
               | some idStr =>
                 match pyNat? (pyStrip idStr) with
                 | some n => Except.ok (some n)
                 | none => Except.error "ValueError: invalid literal for int"
               | none => Except.ok none) : Except String (Option Nat)) with
        | error e => rw [hid] at h; simp at h
        | ok meetingId =>
          rw [hid] at h
          dsimp only at h
          cases hv : processVoteRecord s rid vr.rows with
          | error e => rw [hv] at h; simp at h
          | ok pr =>
            rw [hv] at h
            dsimp only at h
            have hc := ih hrs pr.2 _ r s' h
            exact hc

theorem buildCustomSections_mem (sections : List SectionDoc) (sec : SectionDoc)
    (hmem : sec ∈ sections) (hwk : WELL_KNOWN_SECTION_NAMES.contains sec.name = false) :
    ({ name := sec.name, content := cleanSectionContent sec.content } : ResolutionCustomSection)
      ∈ buildCustomSections sections := by
  induction sections with
  | nil => simp at hmem
  | cons s rest ih =>
    rcases List.mem_cons.mp hmem with h | h
    · subst h
      simp only [buildCustomSections]
      split_ifs with hc
      · rw [hwk] at hc; cases hc
      · exact List.mem_cons_self _ _
    · simp only [buildCustomSections]
      split_ifs with hc
      · exact ih h
      · exact List.mem_cons_of_mem _ (ih h)

theorem buildCustomSections_names (sections : List SectionDoc) (cs : ResolutionCustomSection)
    (h : cs ∈ buildCustomSections sections) :
    WELL_KNOWN_SECTION_NAMES.contains cs.name = false := by
  induction sections with
  | nil => simp [buildCustomSections] at h
  | cons s rest ih =>
    simp only [buildCustomSections] at h
    split_ifs at h with hc
    · exact ih h
    · rcases List.mem_cons.mp h with h | h
      · subst h
        exact Bool.eq_false_iff.mpr hc
      · exact ih h

theorem get_resolution_customSections (s : ScraperState) (resolution_id : Nat) (doc : Document)
    (include_body : Bool) (res : Resolution) (s' : ScraperState) (log : List String)
    (h : get_resolution s resolution_id doc include_body = Except.ok (some res, s', log)) :
    res.customSections = buildCustomSections doc.sections := by
  simp only [get_resolution] at h
  split_ifs at h with herr
  · simp at h
  · cases hr1 : doc.lblResNum with
    | none => rw [hr1] at h; simp at h
    | some resNum =>
      rw [hr1] at h
      dsimp only at h
      cases hr2 : doc.lblLegiFileType with
      | none => rw [hr2] at h; simp at h
      | some legiFileType =>
        rw [hr2] at h
        dsimp only at h
        cases hr3 : doc.lblLegiFileTitle with
        | none => rw [hr3] at h; simp at h
        | some legiFileTitle =>
          rw [hr3] at h
          dsimp only at h
          cases hit : doc.informationTable with
          | none => rw [hit] at h; simp at h
          | some infoTable =>
            rw [hit] at h
            dsimp only at h
            cases hpi : processInformationSection resolution_id
                { id := resolution_id, name := resNum, type := legiFileType, title := legiFileTitle,
                  department := none, category := none, body := none, functions := [],
                  customSections := buildCustomSections doc.sections, attachments := [],
                  meetings := [], votes := [], sponsors := [] } infoTable with
            | error e => rw [hpi] at h; simp at h
            | ok pr =>
              obtain ⟨res2, warnings⟩ := pr
              rw [hpi] at h
              dsimp only at h
              have hres2 : res2.customSections = buildCustomSections doc.sections :=
                processInformationSection_customSections _ _ _ _ _ hpi
              cases hbs : bodyStage include_body doc.bodySection (attachStage doc.attachmentSection res2) with
              | error e => rw [hbs] at h; simp at h
              | ok res4 =>
                rw [hbs] at h
                dsimp only at h
                have hres4 : res4.customSections = buildCustomSections doc.sections := by
                  rw [bodyStage_customSections _ _ _ _ hbs, attachStage_customSections, hres2]
                cases hdisc : doc.discussion with
                | none => rw [hdisc] at h; simp at h
                | some discussionText =>
                  rw [hdisc] at h
                  dsimp only at h
                  cases hmh : doc.meetingHistory with
                  | none =>
                    rw [hmh] at h
                    simp only [Except.ok.injEq, Prod.mk.injEq, Option.some.injEq] at h
                    obtain ⟨h1, -⟩ := h
                    subst h1
                    exact hres4
                  | some mh =>
                    rw [hmh] at h
                    dsimp only at h
                    cases hml : meetingLoop s resolution_id res4 mh.headerRows mh.votingRecords with
                    | error e => rw [hml] at h; simp at h
                    | ok pr2 =>
                      obtain ⟨res5, s5⟩ := pr2
                      rw [hml] at h
                      dsimp only at h
                      simp only [Except.ok.injEq, Prod.mk.injEq, Option.some.injEq] at h
                      obtain ⟨h1, -⟩ := h
                      subst h1
                      rw [meetingLoop_customSections _ _ _ _ _ _ _ hml, hres4]

/-- Claim C8: whenever `get_resolution` returns an aggregate, every section
of the document whose heading is not one of the five well-known names
appears among the aggregate's custom sections, with its content stripped of
surrounding whitespace and purged of non-breaking spaces; and no custom
section is ever produced for a section whose heading exactly matches a
well-known name. -/
theorem C8_custom_sections_roundtrip (s : ScraperState) (resolution_id : Nat) (doc : Document)
    (include_body : Bool) (res : Resolution) (s' : ScraperState) (log : List String)
    (h : get_resolution s resolution_id doc include_body = Except.ok (some res, s', log)) :
    ∀ sec ∈ doc.sections,
      (WELL_KNOWN_SECTION_NAMES.contains sec.name = false →
        ({ name := sec.name, content := cleanSectionContent sec.content } : ResolutionCustomSection)
          ∈ res.customSections) ∧
      (WELL_KNOWN_SECTION_NAMES.contains sec.name = true →
        ∀ cs ∈ res.customSections, cs.name ≠ sec.name) := by
  have hcs := get_resolution_customSections s resolution_id doc include_body res s' log h
  intro sec hmem
  constructor
  · intro hwk
    rw [hcs]
    exact buildCustomSections_mem _ _ hmem hwk
  · intro hwk cs hcsmem hname
    rw [hcs] at hcsmem
    have hf := buildCustomSections_names _ _ hcsmem
    rw [hname] at hf
    rw [hf] at hwk
    cases hwk

/-- The document of the C8 witness: one well-known section heading and one
custom section with padded content. -/
def C8doc : Document :=
  { text := "fine", lblResNum := some "RES 2024-7", lblLegiFileType := some "Resolution",
    lblLegiFileTitle := some "Title",
    sections := [{ name := "Information", content := "well known" },
                 { name := "Financial Impact", content := "  None anticipated.  " }],
    informationTable := some { headers := ["Department:"], data := ["Parks"] },
    attachmentSection := none, bodySection := none, discussion := some "d",
    meetingHistory := none }

/-- The aggregate `get_resolution` builds from `C8doc`. -/
def C8res : Resolution :=
  { id := 9, name := "RES 2024-7", type := "Resolution", title := "Title",
    department := some "Parks", category := none, body := none, functions := [],
    customSections := [{ name := "Financial Impact", content := "None anticipated." }],
    attachments := [], meetings := [], votes := [], sponsors := [] }

theorem C8_witness :
    get_resolution emptyScraperState 9 C8doc false =
        Except.ok (some C8res, emptyScraperState, []) ∧
      ∀ sec ∈ C8doc.sections,
        (WELL_KNOWN_SECTION_NAMES.contains sec.name = false →
          ({ name := sec.name, content := cleanSectionContent sec.content } : ResolutionCustomSection)
            ∈ C8res.customSections) ∧
        (WELL_KNOWN_SECTION_NAMES.contains sec.name = true →
          ∀ cs ∈ C8res.customSections, cs.name ≠ sec.name) :=
  ⟨by decide, C8_custom_sections_roundtrip emptyScraperState 9 C8doc false C8res
    emptyScraperState [] (by decide)⟩

/-- A minimal document every stage of `get_resolution` accepts. -/
def C9goodDoc : Document :=
  { text := "fine", lblResNum := some "RES 2", lblLegiFileType := some "Resolution",
    lblLegiFileTitle := some "T2", sections := [],
    informationTable := some { headers := [], data := [] },
    attachmentSection := none, bodySection := none, discussion := some "d",
    meetingHistory := none }

/-- A document whose required resolution-number element is missing — a
structural parse error (`safe_find` raises). -/
def C9badDoc : Document :=
  { C9goodDoc with lblResNum := none }

/-- The fetch collaborator of the C9 run: id 1 yields the malformed
document, every other id a well-formed one. -/
def C9fetch : Nat → Document :=
  fun n => if n = 1 then C9badDoc else C9goodDoc

/-- The exception message raised for the malformed document. -/
def C9msg : String := "Could not find element div with id ContentPlaceholder1_lblResNum"

/-- Claim C9 counterexample: the claim says a structural parse error aborts
only that document and the controller continues with the next id — but the
source's `try` wraps the whole `for` loop, so the failure at id 1 ends the
crawl: nothing is staged at all, even though id 2 alone parses fine (third
conjunct).  The failing id and message are printed (first conjunct). -/
theorem C9_counterexample :
    (crawlLoop C9fetch false [] emptyScraperState [1, 2]).2.2 = some (1, C9msg) ∧
      (crawlLoop C9fetch false [] emptyScraperState [1, 2]).1 = [] ∧
      (crawlLoop C9fetch false [] emptyScraperState [2]).1.length = 1 := by
  refine ⟨by decide, by decide, by decide⟩

/-- Claim C9 as amended: when processing an id raises (a structural parse
error or anything else), the controller logs that id with the exception
message and stops iterating — no later id of the range is attempted, and the
final commit persists only what was staged before the failure (here the part
of the run before the failing id). -/
theorem C9_failure_stops_crawl (fetch : Nat → Document) (include_body : Bool)
    (recorded : List Nat) (s : ScraperState) (resolution_id : Nat) (rest : List Nat)
    (msg : String)
    (hskip : recorded.contains resolution_id = false)
    (herr : get_resolution s resolution_id (fetch resolution_id) include_body =
      Except.error msg) :
    crawlLoop fetch include_body recorded s (resolution_id :: rest) =
      ([], s, some (resolution_id, msg)) := by
  simp only [crawlLoop]
  rw [hskip]
  simp [herr]

theorem C9_witness :
    ([] : List Nat).contains 1 = false ∧
      get_resolution emptyScraperState 1 (C9fetch 1) false = Except.error C9msg ∧
      crawlLoop C9fetch false [] emptyScraperState [1, 2] =
        ([], emptyScraperState, some (1, C9msg)) :=
  ⟨by decide, by decide,
    C9_failure_stops_crawl C9fetch false [] emptyScraperState 1 [2] C9msg
      (by decide) (by decide)⟩
